import Mathlib

/-!
Shallow embedding of the DigitalOcean droplet-panel core
(`src/modules/digitalocean/widget.go`): the droplet collection, the
selection cursor, the paginated fetch loop, the refresh cycle and the
droplet actions.  External collaborators (the godo HTTP client, the
tview rendering layer, the scrollable-widget base) appear only through
the values the core reads from them: a page-listing adapter is a
function from a requested page number to a listing result, and the
cursor `Selected` / the item count `SetItemCount` of the scrollable
base are carried as plain fields of the widget state.
-/

namespace DigitalOcean

/-- Error values (Go `error`) are modelled as strings. -/
abbrev Err := String

/-- A droplet record: a unique numeric ID plus opaque display fields
(represented by the name).  The core never edits fields of a record. -/
structure Droplet where
  id : Int
  name : String
deriving Repr, DecidableEq

instance : Inhabited Droplet := ⟨⟨0, ""⟩⟩

instance : DecidableEq (Except Err Nat) := fun a b =>
  match a, b with
  | .ok x, .ok y =>
    if h : x = y then .isTrue (by rw [h]) else .isFalse (fun hh => by cases hh; exact h rfl)
  | .error x, .error y =>
    if h : x = y then .isTrue (by rw [h]) else .isFalse (fun hh => by cases hh; exact h rfl)
  | .ok _, .error _ => .isFalse (fun hh => by cases hh)
  | .error _, .ok _ => .isFalse (fun hh => by cases hh)

/-- Pagination links of a page response (`godo.Response.Links`):
whether this is the last page (`IsLastPage`), and the result of parsing
the current page number (`CurrentPage`, which can fail). -/
structure Links where
  isLastPage : Bool
  currentPage : Except Err Nat
deriving Repr, DecidableEq

/-- A page response: its links may be absent (`resp.Links == nil`). -/
structure Response where
  links : Option Links
deriving Repr, DecidableEq

/-- Result of one `client.Droplets.List` call: either a page of records
together with its response, or an error. -/
inductive ListResult where
  | ok (droplets : List Droplet) (resp : Response)
  | error (e : Err)
deriving Repr, DecidableEq

/-- A listing adapter: the result the remote client returns when page
`p` is requested (`opts.Page = p`). -/
abbrev Client := Nat → ListResult

/-- Result of the whole `dropletsFetch` loop.  Go returns the pair
`([]godo.Droplet, error)`; on error the accumulated partial list is
returned together with the error.  `diverges` marks an adapter that
never lets the loop stop within the available fuel. -/
inductive FetchResult where
  | ok (droplets : List Droplet)
  | error (droplets : List Droplet) (e : Err)
  | diverges
deriving Repr, DecidableEq

/-- The `for` loop of `dropletsFetch`, with an explicit fuel bound and
a counter of listing calls made.  `page` is `opts.Page` (zero at entry,
the Go zero value of `godo.ListOptions`), `acc` is `dropletList`.
Each iteration: call `List`, return the accumulator with the error on
failure; append the page's records; break when links are absent or
report the last page; parse the current page number, returning its
error on failure; otherwise request page `p + 1`. -/
def dropletsFetchGo (client : Client) : Nat → List Droplet → Nat → Nat → FetchResult × Nat
  | _, _acc, calls, 0 => (.diverges, calls)
  | page, acc, calls, fuel + 1 =>
    match client page with
    | .error e => (.error acc e, calls + 1)
    | .ok droplets resp =>
      let acc2 := acc ++ droplets
      match resp.links with
      | none => (.ok acc2, calls + 1)
      | some links =>
        if links.isLastPage then (.ok acc2, calls + 1)
        else
          match links.currentPage with
          | .error e => (.error acc2 e, calls + 1)
          | .ok p => dropletsFetchGo client (p + 1) acc2 (calls + 1) fuel

/-- `dropletsFetch`: run the pagination loop from page 0 with an empty
accumulator. -/
def dropletsFetch (client : Client) (fuel : Nat) : FetchResult :=
  (dropletsFetchGo client 0 [] 0 fuel).1

/-- Number of listing calls the pagination loop makes. -/
def dropletsFetchCalls (client : Client) (fuel : Nat) : Nat :=
  (dropletsFetchGo client 0 [] 0 fuel).2

/-- The widget state the core mutates: the droplet collection, the
selection cursor `Selected` and the item count of the scrollable base,
the last-error slot, and whether the godo client was constructed. -/
structure Widget where
  droplets : List Droplet
  selected : Nat
  itemCount : Nat
  err : Option Err
  clientOk : Bool
deriving Repr, DecidableEq

/-- `Fetch`: fails at once if the client is nil; otherwise runs
`dropletsFetch` and stores its droplet list in the widget — in the Go
source `widget.droplets, err = widget.dropletsFetch()` assigns the
returned list in the error case as well.  `none` models a fetch that
never returns. -/
def Fetch (w : Widget) (client : Client) (fuel : Nat) : Option (Widget × Option Err) :=
  if w.clientOk = false then
    some (w, some "client could not be initialized")
  else
    match dropletsFetch client fuel with
    | .ok ds => some ({ w with droplets := ds }, none)
    | .error ds e => some ({ w with droplets := ds }, some e)
    | .diverges => none

/-- `Refresh`: run `Fetch`; on error set the last-error slot and an
item count of zero, on success clear the error slot and set the item
count to the collection's length.  The trailing `display()` call is
pure rendering and has no effect on this state. -/
def Refresh (w : Widget) (client : Client) (fuel : Nat) : Option Widget :=
  match Fetch w client fuel with
  | none => none
  | some (w2, some e) => some { w2 with err := some e, itemCount := 0 }
  | some (w2, none) => some { w2 with err := none, itemCount := w2.droplets.length }

/-- `currentDroplet`: nil for an empty collection or a cursor at or
past the end, otherwise the record at the cursor. -/
def currentDroplet (w : Widget) : Option Droplet :=
  if w.droplets.length = 0 then none
  else if w.droplets.length ≤ w.selected then none
  else w.droplets.get? w.selected

/-- `dropletRemoveSelected`: when a droplet is current, swap the record
at the cursor with the last record (the Go parallel assignment
`a[n-1], a[sel] = a[sel], a[n-1]`) and drop the last slot
(`a = a[:n-1]`).  The cursor is not touched. -/
def dropletRemoveSelected (w : Widget) : Widget :=
  match currentDroplet w with
  | none => w
  | some _ =>
    let n := w.droplets.length
    let selVal := w.droplets.getD w.selected default
    let lastVal := w.droplets.getD (n - 1) default
    let swapped := (w.droplets.set (n - 1) selVal).set w.selected lastVal
    { w with droplets := swapped.take (n - 1) }

/-- A remote call issued by a droplet action. -/
inductive RemoteCall where
  | delete (id : Int)
  | reboot (id : Int)
  | shutdown (id : Int)
  | enablePrivateNetworking (id : Int)
deriving Repr, DecidableEq

/-- `dropletDestroy`: no-op without a current droplet; otherwise issue
the remote delete (whose returned error the Go code discards — the
`deleteErr` the adapter would produce is never consulted), remove the
selected record locally, and refresh. -/
def dropletDestroy (w : Widget) (client : Client) (_deleteErr : Option Err) (fuel : Nat) :
    List RemoteCall × Option Widget :=
  match currentDroplet w with
  | none => ([], some w)
  | some d => ([.delete d.id], Refresh (dropletRemoveSelected w) client fuel)

/-- `dropletRestart`: issue the reboot call (error discarded) and
refresh; no local mutation. -/
def dropletRestart (w : Widget) (client : Client) (_actionErr : Option Err) (fuel : Nat) :
    List RemoteCall × Option Widget :=
  match currentDroplet w with
  | none => ([], some w)
  | some d => ([.reboot d.id], Refresh w client fuel)

/-- `dropletShutDown`: issue the shutdown call (error discarded) and
refresh; no local mutation. -/
def dropletShutDown (w : Widget) (client : Client) (_actionErr : Option Err) (fuel : Nat) :
    List RemoteCall × Option Widget :=
  match currentDroplet w with
  | none => ([], some w)
  | some d => ([.shutdown d.id], Refresh w client fuel)

/-- `dropletEnabledPrivateNetworking`: issue the enable-private-
networking call (error discarded) and refresh; no local mutation. -/
def dropletEnabledPrivateNetworking (w : Widget) (client : Client) (_actionErr : Option Err)
    (fuel : Nat) : List RemoteCall × Option Widget :=
  match currentDroplet w with
  | none => ([], some w)
  | some d => ([.enablePrivateNetworking d.id], Refresh w client fuel)

/-- A mocked adapter serving the pages `P1..Pn` in order: the response
to page `p` is the `p`-th configured page, reporting current page `p`
(so the loop's next request is `p + 1`); the last page reports either
absent links (`lastNil = true`) or links with `IsLastPage` (`lastNil =
false`); a request past the configured pages errors. -/
def scriptClient (pages : List (List Droplet)) (lastNil : Bool) (p : Nat) : ListResult :=
  match pages.get? p with
  | none => .error "page out of range"
  | some ds =>
    if p + 1 = pages.length then
      if lastNil then .ok ds ⟨none⟩ else .ok ds ⟨some ⟨true, .ok p⟩⟩
    else .ok ds ⟨some ⟨false, .ok p⟩⟩

/-- A listing result at which the pagination loop stops: an error, a
response without links, a last-page marker, or a current-page parse
failure. -/
def terminalResult (r : ListResult) : Bool :=
  match r with
  | .error _ => true
  | .ok _ resp =>
    match resp.links with
    | none => true
    | some links =>
      links.isLastPage ||
        (match links.currentPage with
         | .error _ => true
         | .ok _ => false)

/-- The page the loop requests next after receiving `r` (meaningful
only when `r` is not terminal). -/
def nextPageOf (r : ListResult) : Nat :=
  match r with
  | .error _ => 0
  | .ok _ resp =>
    match resp.links with
    | none => 0
    | some links =>
      match links.currentPage with
      | .error _ => 0
      | .ok p => p + 1

/-- The page number of the `k`-th listing call when the loop starts by
requesting page `p` and no earlier response is terminal. -/
def requestPageFrom (client : Client) (p : Nat) : Nat → Nat
  | 0 => p
  | k + 1 => nextPageOf (client (requestPageFrom client p k))

/-- The page number of the `k`-th listing call of `dropletsFetch`
(the loop starts at page 0). -/
def requestPage (client : Client) (k : Nat) : Nat :=
  requestPageFrom client 0 k

/-! Concrete sample values used to instantiate the theorems below. -/

def dA : Droplet := ⟨1, "A"⟩

def dB : Droplet := ⟨2, "B"⟩

def dC : Droplet := ⟨3, "C"⟩

def dD : Droplet := ⟨4, "D"⟩

/-- A widget holding `[A, B, C, D]` with the cursor on `B`. -/
def w4ex : Widget := ⟨[dA, dB, dC, dD], 1, 4, none, true⟩

/-- A widget holding a single droplet, cursor on it. -/
def oneEx : Widget := ⟨[dA], 0, 1, none, true⟩

/-- A widget with an empty collection. -/
def emptyEx : Widget := ⟨[], 0, 0, none, true⟩

/-- A widget whose cursor was left past the end by an external shrink. -/
def shrunkEx : Widget := ⟨[dA], 2, 1, none, true⟩

/-- A widget showing stale data from an earlier fetch. -/
def staleEx : Widget := ⟨[dD], 0, 1, some "old", true⟩

/-- A widget holding `[A, B]` with the cursor on the last record. -/
def lastEx : Widget := ⟨[dA, dB], 1, 2, none, true⟩

/-- An adapter whose first page succeeds with `[A]` and whose second
request fails. -/
def partialClient : Client := fun p =>
  if p = 0 then .ok [dA] ⟨some ⟨false, .ok 0⟩⟩ else .error "boom"

/-! Helper lemmas shared by the claim theorems. -/

theorem lt_of_currentDroplet_some (w : Widget) (d : Droplet)
    (h : currentDroplet w = some d) : w.selected < w.droplets.length := by
  unfold currentDroplet at h
  split_ifs at h with h1 h2
  omega

theorem currentDroplet_some_of_lt (w : Widget) (h : w.selected < w.droplets.length) :
    currentDroplet w = w.droplets.get? w.selected := by
  unfold currentDroplet
  rw [if_neg (by omega), if_neg (by omega)]

theorem currentDroplet_none_of_le (w : Widget) (h : w.droplets.length ≤ w.selected) :
    currentDroplet w = none := by
  unfold currentDroplet
  split_ifs <;> rfl

theorem removeSelected_eq (w : Widget) (h : w.selected < w.droplets.length) :
    dropletRemoveSelected w =
      ⟨((w.droplets.set (w.droplets.length - 1) (w.droplets.getD w.selected default)).set
          w.selected (w.droplets.getD (w.droplets.length - 1) default)).take
          (w.droplets.length - 1),
        w.selected, w.itemCount, w.err, w.clientOk⟩ := by
  unfold dropletRemoveSelected
  rw [currentDroplet_some_of_lt w h, List.get?_eq_getElem?, List.getElem?_eq_getElem h]

/-- C6: `currentDroplet` returns absent for an empty collection or a
cursor at or past the collection's length (as after an external
shrink), and for an in-range cursor on a non-empty collection it
returns the record at the cursor. -/
theorem currentDroplet_safe (w : Widget) :
    ((w.droplets = [] ∨ w.droplets.length ≤ w.selected) → currentDroplet w = none) ∧
    (w.selected < w.droplets.length →
      ∃ d, currentDroplet w = some d ∧ w.droplets.get? w.selected = some d) := by
  constructor
  · intro h
    have hle : w.droplets.length = 0 ∨ w.droplets.length ≤ w.selected := by
      rcases h with h | h
      · left; simp [h]
      · right; exact h
    unfold currentDroplet
    split_ifs with h1 h2
    · rfl
    · rfl
    · rcases hle with h | h <;> omega
  · intro h
    rw [currentDroplet_some_of_lt w h, List.get?_eq_getElem?, List.getElem?_eq_getElem h]
    exact ⟨_, rfl, rfl⟩

/-- Witness for C6: an empty collection, a stale out-of-range cursor,
and an in-range cursor on `[A, B, C, D]`. -/
theorem currentDroplet_safe_witness :
    currentDroplet emptyEx = none ∧ currentDroplet shrunkEx = none ∧
    ∃ d, currentDroplet w4ex = some d ∧ w4ex.droplets.get? w4ex.selected = some d :=
  ⟨(currentDroplet_safe emptyEx).1 (Or.inl rfl),
   (currentDroplet_safe shrunkEx).1 (Or.inr (by decide)),
   (currentDroplet_safe w4ex).2 (by decide)⟩

/-- C10: `dropletRemoveSelected` leaves the widget untouched when no
droplet is current; when one is current, the guard guarantees a
non-empty collection with the cursor strictly below its length, so the
two accessed positions (cursor index and last index) are in bounds, and
removing from a one-element collection yields the empty collection. -/
theorem removeSelected_guard_safety (w : Widget) :
    (currentDroplet w = none → dropletRemoveSelected w = w) ∧
    (∀ d, currentDroplet w = some d →
      0 < w.droplets.length ∧ w.selected < w.droplets.length ∧
      w.droplets.length - 1 < w.droplets.length ∧
      (w.droplets.length = 1 → (dropletRemoveSelected w).droplets = [])) := by
  constructor
  · intro h
    unfold dropletRemoveSelected
    rw [h]
  · intro d h
    have hlt := lt_of_currentDroplet_some w d h
    refine ⟨by omega, hlt, by omega, fun h1 => ?_⟩
    rw [removeSelected_eq w hlt]
    simp [h1]

/-- Witness for C10: the no-op on an empty collection, and the bounds
plus one-element removal on a singleton collection. -/
theorem removeSelected_guard_safety_witness :
    dropletRemoveSelected emptyEx = emptyEx ∧
    (0 < oneEx.droplets.length ∧ oneEx.selected < oneEx.droplets.length ∧
      oneEx.droplets.length - 1 < oneEx.droplets.length ∧
      (oneEx.droplets.length = 1 → (dropletRemoveSelected oneEx).droplets = [])) :=
  ⟨(removeSelected_guard_safety emptyEx).1 (by decide),
   (removeSelected_guard_safety oneEx).2 dA (by decide)⟩

/-- Counterexample to C2 as stated: on the one-element collection
`[A]` with the valid cursor 0, after `dropletRemoveSelected` the cursor
(still 0) is NOT strictly less than the new collection length 0. -/
theorem removeSelected_cursor_not_lt_cx :
    currentDroplet oneEx = some dA ∧
    ¬ (dropletRemoveSelected oneEx).selected < (dropletRemoveSelected oneEx).droplets.length := by
  decide

/-- C2 (amended): `dropletRemoveSelected` leaves the cursor unchanged;
afterwards the cursor never exceeds the new collection length, and is
strictly below it whenever the removed record was not at the last
index.  When it was at the last index the cursor equals the new length
and the defensive bound check of `currentDroplet` yields absent. -/
theorem removeSelected_cursor_le (w : Widget) (d : Droplet)
    (h : currentDroplet w = some d) :
    (dropletRemoveSelected w).selected = w.selected ∧
    (dropletRemoveSelected w).selected ≤ (dropletRemoveSelected w).droplets.length ∧
    (w.selected + 1 < w.droplets.length →
      (dropletRemoveSelected w).selected < (dropletRemoveSelected w).droplets.length) ∧
    (w.selected + 1 = w.droplets.length →
      (dropletRemoveSelected w).selected = (dropletRemoveSelected w).droplets.length ∧
      currentDroplet (dropletRemoveSelected w) = none) := by
  have hlt := lt_of_currentDroplet_some w d h
  have hsel : (dropletRemoveSelected w).selected = w.selected := by
    rw [removeSelected_eq w hlt]
  have hlen : (dropletRemoveSelected w).droplets.length = w.droplets.length - 1 := by
    rw [removeSelected_eq w hlt]
    simp [List.length_take, List.length_set]
  refine ⟨hsel, ?_, fun hs => ?_, fun hl => ⟨?_, ?_⟩⟩
  · rw [hsel, hlen]; omega
  · rw [hsel, hlen]; omega
  · rw [hsel, hlen]; omega
  · exact currentDroplet_none_of_le _ (by rw [hsel, hlen]; omega)

/-- Witness for C2 (amended), at both kinds of input: removal from
`[A, B, C, D]` at cursor 1 keeps the cursor at 1, strictly below the
new length; removal from `[A, B]` at the last index 1 keeps the cursor
at 1, now equal to the new length, with `currentDroplet` absent. -/
theorem removeSelected_cursor_le_witness :
    ((dropletRemoveSelected w4ex).selected = w4ex.selected ∧
      (dropletRemoveSelected w4ex).selected ≤ (dropletRemoveSelected w4ex).droplets.length ∧
      (w4ex.selected + 1 < w4ex.droplets.length →
        (dropletRemoveSelected w4ex).selected < (dropletRemoveSelected w4ex).droplets.length) ∧
      (w4ex.selected + 1 = w4ex.droplets.length →
        (dropletRemoveSelected w4ex).selected = (dropletRemoveSelected w4ex).droplets.length ∧
        currentDroplet (dropletRemoveSelected w4ex) = none)) ∧
    ((dropletRemoveSelected lastEx).selected = lastEx.selected ∧
      (dropletRemoveSelected lastEx).selected ≤ (dropletRemoveSelected lastEx).droplets.length ∧
      (lastEx.selected + 1 < lastEx.droplets.length →
        (dropletRemoveSelected lastEx).selected < (dropletRemoveSelected lastEx).droplets.length) ∧
      (lastEx.selected + 1 = lastEx.droplets.length →
        (dropletRemoveSelected lastEx).selected = (dropletRemoveSelected lastEx).droplets.length ∧
        currentDroplet (dropletRemoveSelected lastEx) = none)) :=
  ⟨removeSelected_cursor_le w4ex dB (by decide),
   removeSelected_cursor_le lastEx dB (by decide)⟩

/-- C4: for a non-empty collection and an in-range cursor,
`dropletRemoveSelected` shortens the collection by one, leaves the
cursor unchanged, keeps every other surviving position intact, and puts
the previously-last record in the cursor's slot (when that slot
survives). -/
theorem removeSelected_swap_remove (w : Widget) (h : w.selected < w.droplets.length) :
    (dropletRemoveSelected w).droplets.length = w.droplets.length - 1 ∧
    (dropletRemoveSelected w).selected = w.selected ∧
    (∀ i, i < w.droplets.length - 1 → i ≠ w.selected →
      (dropletRemoveSelected w).droplets.get? i = w.droplets.get? i) ∧
    (w.selected < w.droplets.length - 1 →
      (dropletRemoveSelected w).droplets.get? w.selected =
        w.droplets.get? (w.droplets.length - 1)) := by
  rw [removeSelected_eq w h]
  refine ⟨?_, rfl, ?_, ?_⟩
  · simp [List.length_take, List.length_set]
  · intro i hi hne
    simp only [List.get?_eq_getElem?]
    rw [List.getElem?_take_of_lt hi, List.getElem?_set_ne (by omega),
      List.getElem?_set_ne (by omega)]
  · intro hs
    simp only [List.get?_eq_getElem?]
    rw [List.getElem?_take_of_lt hs,
      List.getElem?_set_eq_of_lt _ (by simp [List.length_set]; omega),
      List.getD_eq_getElem w.droplets default (by omega),
      List.getElem?_eq_getElem (by omega)]

/-- Witness for C4: `[A, B, C, D]` with cursor 1 becomes `[A, D, C]`
with cursor 1 — length 3, positions 0 and 2 intact, `D` in slot 1. -/
theorem removeSelected_swap_remove_witness :
    (dropletRemoveSelected w4ex).droplets.length = w4ex.droplets.length - 1 ∧
    (dropletRemoveSelected w4ex).selected = w4ex.selected ∧
    (∀ i, i < w4ex.droplets.length - 1 → i ≠ w4ex.selected →
      (dropletRemoveSelected w4ex).droplets.get? i = w4ex.droplets.get? i) ∧
    (w4ex.selected < w4ex.droplets.length - 1 →
      (dropletRemoveSelected w4ex).droplets.get? w4ex.selected =
        w4ex.droplets.get? (w4ex.droplets.length - 1)) :=
  removeSelected_swap_remove w4ex (by decide)

/-- C7: with a droplet selected, `dropletDestroy` issues the remote
delete for the selected ID, removes the selected record locally, and
then refreshes — its entire resulting state is that of
`Refresh (dropletRemoveSelected w)`, so the delete call's error is
never stored (the result is the same for every value of that error). -/
theorem destroy_removes_then_refreshes (w : Widget) (d : Droplet)
    (h : currentDroplet w = some d) (client : Client) (e1 e2 : Option Err) (fuel : Nat) :
    dropletDestroy w client e1 fuel =
      ([RemoteCall.delete d.id], Refresh (dropletRemoveSelected w) client fuel) ∧
    dropletDestroy w client e1 fuel = dropletDestroy w client e2 fuel := by
  unfold dropletDestroy
  rw [h]
  exact ⟨rfl, rfl⟩

/-- Witness for C7: destroying `B` out of `[A, B, C, D]` against a
failing delete call. -/
theorem destroy_removes_then_refreshes_witness :
    dropletDestroy w4ex partialClient (some "delete failed") 5 =
      ([RemoteCall.delete dB.id], Refresh (dropletRemoveSelected w4ex) partialClient 5) ∧
    dropletDestroy w4ex partialClient (some "delete failed") 5 =
      dropletDestroy w4ex partialClient none 5 :=
  destroy_removes_then_refreshes w4ex dB (by decide) partialClient (some "delete failed") none 5

/-- C8: with a droplet selected, reboot, shutdown and
enable-private-networking each issue only their remote call and
refresh: the resulting widget state is exactly the state `Refresh`
alone produces on the unmodified widget. -/
theorem actions_refresh_only (w : Widget) (d : Droplet) (h : currentDroplet w = some d)
    (client : Client) (e : Option Err) (fuel : Nat) :
    dropletRestart w client e fuel = ([RemoteCall.reboot d.id], Refresh w client fuel) ∧
    dropletShutDown w client e fuel = ([RemoteCall.shutdown d.id], Refresh w client fuel) ∧
    dropletEnabledPrivateNetworking w client e fuel =
      ([RemoteCall.enablePrivateNetworking d.id], Refresh w client fuel) := by
  unfold dropletRestart dropletShutDown dropletEnabledPrivateNetworking
  rw [h]
  exact ⟨rfl, rfl, rfl⟩

/-- Witness for C8: the three actions on `[A, B, C, D]` with cursor on
`B`. -/
theorem actions_refresh_only_witness :
    dropletRestart w4ex partialClient none 5 =
      ([RemoteCall.reboot dB.id], Refresh w4ex partialClient 5) ∧
    dropletShutDown w4ex partialClient none 5 =
      ([RemoteCall.shutdown dB.id], Refresh w4ex partialClient 5) ∧
    dropletEnabledPrivateNetworking w4ex partialClient none 5 =
      ([RemoteCall.enablePrivateNetworking dB.id], Refresh w4ex partialClient 5) :=
  actions_refresh_only w4ex dB (by decide) partialClient none 5

/-- C5: when the paginated fetch succeeds, `Refresh` wholly replaces
the droplet collection with the fetched sequence, sets the external
item count to its length, and clears the last-error slot. -/
theorem refresh_success_replaces (w : Widget) (client : Client) (fuel : Nat)
    (ds : List Droplet) (hc : w.clientOk = true)
    (hf : dropletsFetch client fuel = .ok ds) :
    Refresh w client fuel =
      some { w with droplets := ds, itemCount := ds.length, err := none } := by
  simp [Refresh, Fetch, hc, hf]

/-- Witness for C5: a stale widget (old droplets, old error) refreshed
through a two-page fetch ends with the new collection, its length as
item count, and no error. -/
theorem refresh_success_replaces_witness :
    Refresh staleEx (scriptClient [[dA], [dB, dC]] false) 5 =
      some { staleEx with droplets := [dA, dB, dC], itemCount := [dA, dB, dC].length, err := none } :=
  refresh_success_replaces staleEx (scriptClient [[dA], [dB, dC]] false) 5 [dA, dB, dC]
    (by decide) (by decide)

/-- Counterexample to C1 as stated: page 1 returns `[A]`, page 2
errors; after `Refresh` the collection is `[A]`, not empty — the
records accumulated before the error are retained, while the item
count is 0 and the error is stored. -/
theorem refresh_error_retains_partial_cx :
    Refresh emptyEx partialClient 5 =
      some ⟨[dA], 0, 0, some "boom", true⟩ ∧
    (Refresh emptyEx partialClient 5).map Widget.droplets ≠ some [] := by
  decide

/-- C1 (amended): when the paginated fetch errors, after `Refresh` the
droplet collection holds exactly the records accumulated from the
pages fetched before the error (the partial accumulator is stored, not
cleared), the external item count is set to zero, and the last-error
slot holds the encountered error. -/
theorem refresh_error_partial_accumulator (w : Widget) (client : Client) (fuel : Nat)
    (ds : List Droplet) (e : Err) (hc : w.clientOk = true)
    (hf : dropletsFetch client fuel = .error ds e) :
    Refresh w client fuel =
      some { w with droplets := ds, itemCount := 0, err := some e } := by
  simp [Refresh, Fetch, hc, hf]

/-- Witness for C1 (amended): the failing second page leaves the first
page's record in the collection with item count 0 and the error set. -/
theorem refresh_error_partial_accumulator_witness :
    Refresh emptyEx partialClient 5 =
      some { emptyEx with droplets := [dA], itemCount := 0, err := some "boom" } :=
  refresh_error_partial_accumulator emptyEx partialClient 5 [dA] "boom" (by decide) (by decide)

theorem scriptClient_run (pages : List (List Droplet)) (lastNil : Bool) :
    ∀ fuel k acc calls, k < pages.length → pages.length - k ≤ fuel →
      dropletsFetchGo (scriptClient pages lastNil) k acc calls fuel =
        (.ok (acc ++ (pages.drop k).flatten), calls + (pages.length - k)) := by
  intro fuel
  induction fuel with
  | zero =>
    intro k acc calls hk hf
    exact absurd hf (by omega)
  | succ f ih =>
    intro k acc calls hk hf
    have hget : pages.get? k = some (pages.getD k []) := by
      rw [List.get?_eq_getElem?, List.getElem?_eq_getElem hk, List.getD_eq_getElem pages [] hk]
    have hdrop : pages.drop k = pages.getD k [] :: pages.drop (k + 1) := by
      rw [List.getD_eq_getElem pages [] hk]
      exact List.drop_eq_getElem_cons hk
    by_cases hlast : k + 1 = pages.length
    · have hdropnil : pages.drop (k + 1) = [] := by
        rw [hlast]; exact List.drop_length pages
      have hlen : pages.length - k = 1 := by omega
      rw [hdrop, hdropnil, hlen]
      simp only [dropletsFetchGo, scriptClient, hget, if_pos hlast]
      cases lastNil <;> simp
    · have hk2 : k + 1 < pages.length := by omega
      simp only [dropletsFetchGo, scriptClient, hget, if_neg hlast]
      rw [ih (k + 1) (acc ++ pages.getD k []) (calls + 1) hk2 (by omega), hdrop]
      rw [if_neg (by simp)]
      simp [List.append_assoc]
      omega

/-- C3: for pages `P1..Pn` served in order by a mocked adapter, each
but the last reporting a next-page link and the last reporting either
absent links or a last-page marker (both treated as "last page", not an
error), `dropletsFetch` returns the concatenation of `P1..Pn` in
arrival order without error, and makes exactly `n` listing calls — none
after the last page. -/
theorem fetch_concatenates_pages (pages : List (List Droplet)) (lastNil : Bool) (fuel : Nat)
    (h1 : pages ≠ []) (h2 : pages.length ≤ fuel) :
    dropletsFetch (scriptClient pages lastNil) fuel = .ok pages.flatten ∧
    dropletsFetchCalls (scriptClient pages lastNil) fuel = pages.length := by
  have h0 : 0 < pages.length := by
    cases pages with
    | nil => exact absurd rfl h1
    | cons p ps => simp
  have h := scriptClient_run pages lastNil fuel 0 [] 0 h0 (by omega)
  unfold dropletsFetch dropletsFetchCalls
  rw [h]
  simp

/-- Witness for C3: pages `[A]` then `[B, C]` (link-marked last page)
concatenate to `[A, B, C]` in two listing calls. -/
theorem fetch_concatenates_pages_witness :
    dropletsFetch (scriptClient [[dA], [dB, dC]] false) 10 = .ok [dA, dB, dC] ∧
    dropletsFetchCalls (scriptClient [[dA], [dB, dC]] false) 10 = [[dA], [dB, dC]].length := by
  have h := fetch_concatenates_pages [[dA], [dB, dC]] false 10 (by simp) (by simp)
  simpa using h

theorem requestPageFrom_succ (client : Client) (p k : Nat) :
    requestPageFrom client p (k + 1) =
      requestPageFrom client (nextPageOf (client p)) k := by
  induction k with
  | zero => rfl
  | succ k ih =>
    show nextPageOf (client (requestPageFrom client p (k + 1))) = _
    rw [ih]
    rfl

theorem fetchGo_stops (client : Client) :
    ∀ k p acc calls fuel, terminalResult (client (requestPageFrom client p k)) = true →
      k < fuel → (dropletsFetchGo client p acc calls fuel).1 ≠ .diverges := by
  intro k
  induction k with
  | zero =>
    intro p acc calls fuel hterm hfuel
    cases fuel with
    | zero => omega
    | succ f =>
      have hp : requestPageFrom client p 0 = p := rfl
      rw [hp] at hterm
      simp only [dropletsFetchGo]
      cases hcp : client p with
      | error e => simp [hcp]
      | ok ds resp =>
        cases hl : resp.links with
        | none => simp [hcp, hl]
        | some links =>
          cases hb : links.isLastPage with
          | true => simp [hcp, hl, hb]
          | false =>
            cases hcur : links.currentPage with
            | error e => simp [hcp, hl, hb, hcur]
            | ok q =>
              exfalso
              simp only [terminalResult, hcp, hl, hb, hcur] at hterm
              simp at hterm
  | succ k ih =>
    intro p acc calls fuel hterm hfuel
    cases fuel with
    | zero => omega
    | succ f =>
      rw [requestPageFrom_succ] at hterm
      simp only [dropletsFetchGo]
      cases hcp : client p with
      | error e => simp [hcp]
      | ok ds resp =>
        cases hl : resp.links with
        | none => simp [hcp, hl]
        | some links =>
          cases hb : links.isLastPage with
          | true => simp [hcp, hl, hb]
          | false =>
            cases hcur : links.currentPage with
            | error e => simp [hcp, hl, hb, hcur]
            | ok q =>
              have hnext : nextPageOf (client p) = q + 1 := by
                simp only [nextPageOf, hcp, hl, hcur]
              rw [hnext] at hterm
              simp only [hcp, hl, hb, hcur, Bool.false_eq_true, ite_false]
              exact ih (q + 1) (acc ++ ds) (calls + 1) f hterm (by omega)

/-- C9: whenever some response in the adapter's response sequence is
terminal — an error, absent links, a last-page marker, or a failing
next-page-number parse — the pagination loop of `dropletsFetch` stops:
with fuel beyond that point it never runs out (the loop makes only
finitely many listing calls). -/
theorem fetch_terminates (client : Client) (k fuel : Nat)
    (hterm : terminalResult (client (requestPage client k)) = true) (hfuel : k < fuel) :
    dropletsFetch client fuel ≠ .diverges := by
  unfold dropletsFetch
  exact fetchGo_stops client k 0 [] 0 fuel hterm hfuel

/-- Witness for C9: the adapter failing on its second call makes the
loop stop within any fuel beyond two calls. -/
theorem fetch_terminates_witness : dropletsFetch partialClient 5 ≠ FetchResult.diverges :=
  fetch_terminates partialClient 1 5 (by decide) (by decide)

end DigitalOcean
